import Mathlib

/-!
Verification of the printy ESC/POS printer protocol layer.

This file shallowly embeds the protocol codec (src/escpos.rs), the USB
transport retry logic and the markdown document compiler (src/printer.rs)
as executable Lean definitions, and proves the specified properties about
them. Machine bytes are modelled as natural numbers; bitwise operations
use the same masks as the source.
-/

/-- Paper status enumeration, mirroring `PaperStatus` in src/escpos.rs. -/
inductive PaperStatus where
  | adequate
  | nearEnd
  | notPresent
deriving DecidableEq

/-- Error bits record, mirroring `PrinterError` in src/escpos.rs. -/
structure PrinterError where
  is_cutter_err : Bool
  is_fatal_err : Bool
  is_recoverable_err : Bool
deriving DecidableEq

/-- Offline cause record, mirroring `OfflineCause` in src/escpos.rs. -/
structure OfflineCause where
  is_cover_open : Bool
  is_paper_empty : Bool
  error : Option PrinterError
deriving DecidableEq

/-- Decoded status record, mirroring `PrinterStatus` in src/escpos.rs. -/
structure PrinterStatus where
  is_online : Bool
  offline_cause : Option OfflineCause
  paper_status : PaperStatus
deriving DecidableEq

/-- The per-byte template check from `PrinterStatus::from_bytes`:
`(b & 0b10010011) == 0b00010010`. -/
def templateOk (b : Nat) : Bool :=
  (b &&& 0b10010011) == 0b00010010

/-- Embedding of `PrinterStatus::from_bytes` (src/escpos.rs lines 59-107).
The four arguments are the bytes `[dev_status_b, off_cause_b, err_cause_b,
paper_status_b]` in order.  The Rust builders always succeed because every
field is set, so `build().ok()` is embedded as `some`. -/
def from_bytes (dev_status_b off_cause_b err_cause_b paper_status_b : Nat) :
    Option PrinterStatus :=
  if !(templateOk dev_status_b && templateOk off_cause_b &&
       templateOk err_cause_b && templateOk paper_status_b) then
    none
  else
    let is_online := (dev_status_b &&& 0b1000) == 0
    let off_err : Option PrinterError :=
      if (off_cause_b &&& 0b1000000) != 0 then
        some { is_cutter_err := (err_cause_b &&& 0b1000) != 0,
               is_fatal_err := (err_cause_b &&& 0b100000) != 0,
               is_recoverable_err := (err_cause_b &&& 0b1000000) != 0 }
      else
        none
    let off_cause : Option OfflineCause :=
      if !is_online then
        some { is_cover_open := (off_cause_b &&& 0b100) != 0,
               is_paper_empty := (off_cause_b &&& 0b100000) != 0,
               error := off_err }
      else
        none
    some { is_online := is_online,
           offline_cause := off_cause,
           paper_status :=
             if (paper_status_b &&& 0b1100000) != 0 then PaperStatus.notPresent
             else if (paper_status_b &&& 0b1100) != 0 then PaperStatus.nearEnd
             else PaperStatus.adequate }

/-- Escape byte, `ESC` in src/escpos.rs. -/
def ESC : Nat := 0x1B

/-- Group separator byte, `GS` in src/escpos.rs. -/
def GS : Nat := 0x1D

/-- Embedding of Rust `u8::clamp(lo, hi)` on the natural-number model. -/
def rustClamp (x lo hi : Nat) : Nat := max lo (min x hi)

/-- `CMD_BOLD(enable)` from src/escpos.rs: header `ESC b'E'` plus the boolean
cast to a byte by the `def_cmd!` macro. -/
def CMD_BOLD (enable : Bool) : List Nat :=
  [ESC, 69, if enable then 1 else 0]

/-- `CMD_UNDERLINE(enable)` from src/escpos.rs: header `ESC b'-'` plus the
boolean cast to a byte. -/
def CMD_UNDERLINE (enable : Bool) : List Nat :=
  [ESC, 45, if enable then 1 else 0]

/-- `CMD_CHAR_SIZE(h_magnify, w_magnify)` from src/escpos.rs lines 177-184:
`[GS, b'!', (w_magnify.clamp(0, 8) << 4) | h_magnify.clamp(0, 8)]`. -/
def CMD_CHAR_SIZE (h_magnify w_magnify : Nat) : List Nat :=
  [GS, 33, (rustClamp w_magnify 0 8 <<< 4) ||| rustClamp h_magnify 0 8]

/-- Markdown AST nodes, restricted to the node kinds `compile_node` in
src/printer.rs distinguishes; `unsupported` stands for every other
`mdast::Node` variant (the wildcard arm).  Text content is modelled as the
UTF-8 byte list of the node's string value. -/
inductive MdNode where
  | root (children : List MdNode)
  | paragraph (children : List MdNode)
  | heading (depth : Nat) (children : List MdNode)
  | text (value : List Nat)
  | strong (children : List MdNode)
  | unsupported

mutual

/-- Embedding of `EscposMarkdown::compile_node` (src/printer.rs lines
383-423).  The Rust code appends to a mutable buffer; here the buffer is
passed and returned explicitly. -/
def compileNode : MdNode → List Nat → List Nat
  | MdNode.root cs, buf => compileNodes cs buf
  | MdNode.paragraph cs, buf => compileNodes cs buf ++ [10, 10]
  | MdNode.heading depth cs, buf =>
      let cmds : List Nat × List Nat :=
        match depth with
        | 1 => (CMD_CHAR_SIZE 1 0, CMD_CHAR_SIZE 0 0)
        | 2 => (CMD_UNDERLINE true ++ CMD_BOLD true,
                CMD_UNDERLINE false ++ CMD_BOLD false)
        | 3 => (CMD_BOLD true, CMD_BOLD false)
        | _ => ([], [])
      (compileNodes cs (buf ++ cmds.1) ++ cmds.2) ++ [10, 10]
  | MdNode.text v, buf => buf ++ v
  | MdNode.strong cs, buf => compileNodes cs (buf ++ CMD_BOLD true) ++ CMD_BOLD false
  | MdNode.unsupported, buf => buf

/-- Folding `compile_node` over a child list, as the `for_each` loops in
src/printer.rs do. -/
def compileNodes : List MdNode → List Nat → List Nat
  | [], buf => buf
  | c :: cs, buf => compileNodes cs (compileNode c buf)

end

/-- The subset of `rusb::Error` variants the transport layer distinguishes:
`Pipe` is matched specially by `_io_with_retry`; the rest all take the same
fallback arm. -/
inductive RusbError where
  | pipe
  | timeout
  | noDevice
  | busy
  | otherErr
deriving DecidableEq

/-- `DriverKind` from src/printer.rs. -/
inductive DriverKind where
  | debug
  | usb
deriving DecidableEq

/-- Structured stand-in for the formatted `context` strings built in
src/printer.rs; each constructor records exactly the data interpolated into
the corresponding `format!` string. -/
inductive ErrContext where
  | clearHaltFailed (ept_addr : Nat)
  | retryFailed (ept_addr : Nat)
  | ioFailed (ept_addr : Nat) (e : RusbError)
  | otherContext (s : String)
deriving DecidableEq

/-- `PrintyError` from src/printer.rs (the `source` of a driver error is a
`rusb` error in every path this development models). -/
inductive PrintyError where
  | driver (kind : DriverKind) (context : ErrContext) (source : Option RusbError)
  | parse (context : String)
deriving DecidableEq

/-- Trace of one `_io_with_retry` run: the returned result, how many times
`io_func` was invoked, and the endpoints `clear_halt` was called on. -/
structure IoTrace (T : Type) where
  result : Except PrintyError T
  ioCalls : Nat
  clearHaltCalls : List Nat

/-- Embedding of `UsbDriver::_io_with_retry` (src/printer.rs lines 220-247).
`r1` is the outcome of the first `io_func()` call, `clearHaltRes` the
outcome `clear_halt` would have, and `r2` the outcome of a second
`io_func()` call; the trace records which of these actually ran. -/
def ioWithRetry {T : Type} (ept_addr : Nat) (r1 : Except RusbError T)
    (clearHaltRes : Except RusbError Unit) (r2 : Except RusbError T) :
    IoTrace T :=
  match r1 with
  | Except.ok v => ⟨Except.ok v, 1, []⟩
  | Except.error RusbError.pipe =>
      match clearHaltRes with
      | Except.error e =>
          ⟨Except.error (PrintyError.driver DriverKind.usb
              (ErrContext.clearHaltFailed ept_addr) (some e)), 1, [ept_addr]⟩
      | Except.ok _ =>
          match r2 with
          | Except.ok v => ⟨Except.ok v, 2, [ept_addr]⟩
          | Except.error e =>
              ⟨Except.error (PrintyError.driver DriverKind.usb
                  (ErrContext.retryFailed ept_addr) (some e)), 2, [ept_addr]⟩
  | Except.error e =>
      ⟨Except.error (PrintyError.driver DriverKind.usb
          (ErrContext.ioFailed ept_addr e) (some e)), 1, []⟩

/-- Outcome of one `driver.read(&mut buf)` call in `Printer::status`: the
returned length together with the four bytes of the buffer afterwards. -/
structure ReadResult where
  len : Nat
  b0 : Nat
  b1 : Nat
  b2 : Nat
  b3 : Nat
deriving DecidableEq

/-- Observable outcome of `Printer::status`: either the process panics (the
`unwrap` on the write) or the call returns an `Option PrinterStatus`. -/
inductive StatusOutcome where
  | panics
  | returns (s : Option PrinterStatus)
deriving DecidableEq

/-- Embedding of `Printer::status` (src/printer.rs lines 332-349),
parameterised by the outcomes of the driver write and read it performs.
The write result is passed to `unwrap()`, so a write error panics; the read
is matched as `Ok(len) if len == buf.len()` with `buf.len() = 4`, every
other case yielding `None`. -/
def statusRun (writeRes : Except PrintyError Nat)
    (readRes : Except PrintyError ReadResult) : StatusOutcome :=
  match writeRes with
  | Except.error _ => StatusOutcome.panics
  | Except.ok _ =>
      match readRes with
      | Except.ok r =>
          if r.len == 4 then StatusOutcome.returns (from_bytes r.b0 r.b1 r.b2 r.b3)
          else StatusOutcome.returns none
      | Except.error _ => StatusOutcome.returns none

example : from_bytes 0x12 0x12 0x12 0x12 =
    some { is_online := true, offline_cause := none,
           paper_status := PaperStatus.adequate } := by decide

example : from_bytes 0x00 0x12 0x12 0x12 = none := by decide

example : from_bytes 0x1A 0x52 0x32 0x12 =
    some { is_online := false,
           offline_cause := some { is_cover_open := false,
                                   is_paper_empty := false,
                                   error := some { is_cutter_err := false,
                                                   is_fatal_err := true,
                                                   is_recoverable_err := false } },
           paper_status := PaperStatus.adequate } := by decide

/-- Characterisation of `from_bytes` on template-valid input, shared by the
decoder theorems below. -/
theorem from_bytes_valid_eq (b0 b1 b2 b3 : Nat)
    (h : (templateOk b0 && templateOk b1 && templateOk b2 && templateOk b3) = true) :
    from_bytes b0 b1 b2 b3 =
      some { is_online := (b0 &&& 0b1000) == 0,
             offline_cause :=
               if !((b0 &&& 0b1000) == 0) then
                 some { is_cover_open := (b1 &&& 0b100) != 0,
                        is_paper_empty := (b1 &&& 0b100000) != 0,
                        error :=
                          if (b1 &&& 0b1000000) != 0 then
                            some { is_cutter_err := (b2 &&& 0b1000) != 0,
                                   is_fatal_err := (b2 &&& 0b100000) != 0,
                                   is_recoverable_err := (b2 &&& 0b1000000) != 0 }
                          else none }
               else none,
             paper_status :=
               if (b3 &&& 0b1100000) != 0 then PaperStatus.notPresent
               else if (b3 &&& 0b1100) != 0 then PaperStatus.nearEnd
               else PaperStatus.adequate } := by
  unfold from_bytes
  rw [h]
  rfl

/-- C2: for every 4-byte input in which at least one byte violates the
template `b &&& 0b10010011 == 0b00010010`, the status decoder returns
`none`, never a partially populated status value. -/
theorem from_bytes_rejects_invalid (b0 b1 b2 b3 : Nat)
    (h0 : b0 < 256) (h1 : b1 < 256) (h2 : b2 < 256) (h3 : b3 < 256)
    (h : ¬(templateOk b0 = true ∧ templateOk b1 = true ∧
           templateOk b2 = true ∧ templateOk b3 = true)) :
    from_bytes b0 b1 b2 b3 = none := by
  unfold from_bytes
  have hc : (templateOk b0 && templateOk b1 && templateOk b2 && templateOk b3) = false := by
    cases e0 : templateOk b0 <;> cases e1 : templateOk b1 <;>
      cases e2 : templateOk b2 <;> cases e3 : templateOk b3 <;> simp_all
  rw [hc]
  rfl

/-- Witness for C2 at the concrete invalid snapshot `[0x00, 0x12, 0x12, 0x12]`
(the first byte fails the template). -/
theorem from_bytes_rejects_invalid_witness :
    from_bytes 0x00 0x12 0x12 0x12 = none :=
  from_bytes_rejects_invalid 0x00 0x12 0x12 0x12 (by decide) (by decide)
    (by decide) (by decide) (by decide)

/-- C3: for every 4-byte input that passes template validation, decoding
succeeds and the decoded paper status is `notPresent` whenever the paper-out
sensor bits (mask `0b1100000`) of the paper-status byte are set, regardless
of the near-end bits; else `nearEnd` whenever the near-end sensor bits
(mask `0b1100`) are set; else `adequate`. -/
theorem from_bytes_paper_priority (b0 b1 b2 b3 : Nat)
    (h0 : b0 < 256) (h1 : b1 < 256) (h2 : b2 < 256) (h3 : b3 < 256)
    (hv : templateOk b0 = true ∧ templateOk b1 = true ∧
          templateOk b2 = true ∧ templateOk b3 = true) :
    ∃ s, from_bytes b0 b1 b2 b3 = some s ∧
      ((b3 &&& 0b1100000) ≠ 0 → s.paper_status = PaperStatus.notPresent) ∧
      ((b3 &&& 0b1100000) = 0 → (b3 &&& 0b1100) ≠ 0 →
        s.paper_status = PaperStatus.nearEnd) ∧
      ((b3 &&& 0b1100000) = 0 → (b3 &&& 0b1100) = 0 →
        s.paper_status = PaperStatus.adequate) := by
  obtain ⟨t0, t1, t2, t3⟩ := hv
  refine ⟨_, from_bytes_valid_eq b0 b1 b2 b3 (by simp [t0, t1, t2, t3]), ?_, ?_, ?_⟩
  · intro hout
    simp [hout]
  · intro hout hnear
    simp [hout, hnear]
  · intro hout hnear
    simp [hout, hnear]

/-- Witness for C3 at the concrete snapshot `[0x12, 0x12, 0x12, 0x7E]`: the
paper byte `0x7E` has both the paper-out bits and the near-end bits set, and
the decoded paper status is `notPresent` (paper-out wins). -/
theorem from_bytes_paper_priority_witness :
    ∃ s, from_bytes 0x12 0x12 0x12 0x7E = some s ∧
      s.paper_status = PaperStatus.notPresent := by
  obtain ⟨s, hs, hp, -, -⟩ :=
    from_bytes_paper_priority 0x12 0x12 0x12 0x7E (by decide) (by decide)
      (by decide) (by decide) ⟨by decide, by decide, by decide, by decide⟩
  exact ⟨s, hs, hp (by decide)⟩

/-- C4: for every 4-byte input that decodes successfully, `is_online` equals
the test `(dev_status_b &&& 0b1000) == 0`, and `offline_cause` is `none`
whenever the status is online. -/
theorem from_bytes_online_inv (b0 b1 b2 b3 : Nat)
    (h0 : b0 < 256) (h1 : b1 < 256) (h2 : b2 < 256) (h3 : b3 < 256)
    (s : PrinterStatus) (hs : from_bytes b0 b1 b2 b3 = some s) :
    s.is_online = ((b0 &&& 0b1000) == 0) ∧
      (s.is_online = true → s.offline_cause = none) := by
  by_cases hb : (templateOk b0 && templateOk b1 && templateOk b2 && templateOk b3) = true
  · rw [from_bytes_valid_eq b0 b1 b2 b3 hb] at hs
    obtain rfl : _ = s := Option.some_injective _ hs
    refine ⟨rfl, fun hon => ?_⟩
    simp only at hon
    simp [hon]
  · rw [Bool.not_eq_true] at hb
    unfold from_bytes at hs
    rw [hb] at hs
    simp at hs

/-- Witness for C4 at the concrete online snapshot `[0x12, 0x12, 0x12, 0x12]`. -/
theorem from_bytes_online_inv_witness :
    from_bytes 0x12 0x12 0x12 0x12 =
        some { is_online := true, offline_cause := none,
               paper_status := PaperStatus.adequate } ∧
      ({ is_online := true, offline_cause := none,
         paper_status := PaperStatus.adequate } : PrinterStatus).is_online =
        ((0x12 &&& 0b1000) == 0) ∧
      ({ is_online := true, offline_cause := none,
         paper_status := PaperStatus.adequate } : PrinterStatus).offline_cause = none := by
  have h := from_bytes_online_inv 0x12 0x12 0x12 0x12 (by decide) (by decide)
    (by decide) (by decide)
    { is_online := true, offline_cause := none, paper_status := PaperStatus.adequate }
    (by decide)
  exact ⟨by decide, h.1, h.2 rfl⟩

/-- C5: for every offline snapshot that decodes successfully, the error
sub-record of the offline cause is populated exactly when bit 6 of the
offline-cause byte (mask `0b1000000`) is set, and its three flags are read
from the error-cause byte as bit 3 (cutter), bit 5 (fatal) and bit 6
(recoverable). -/
theorem from_bytes_error_decode (b0 b1 b2 b3 : Nat)
    (h0 : b0 < 256) (h1 : b1 < 256) (h2 : b2 < 256) (h3 : b3 < 256)
    (s : PrinterStatus) (oc : OfflineCause)
    (hs : from_bytes b0 b1 b2 b3 = some s)
    (hoff : s.is_online = false) (hoc : s.offline_cause = some oc) :
    (oc.error.isSome = true ↔ (b1 &&& 0b1000000) ≠ 0) ∧
      oc.error = (if (b1 &&& 0b1000000) != 0 then
          some { is_cutter_err := (b2 &&& 0b1000) != 0,
                 is_fatal_err := (b2 &&& 0b100000) != 0,
                 is_recoverable_err := (b2 &&& 0b1000000) != 0 }
        else none) := by
  by_cases hb : (templateOk b0 && templateOk b1 && templateOk b2 && templateOk b3) = true
  · rw [from_bytes_valid_eq b0 b1 b2 b3 hb] at hs
    obtain rfl : _ = s := Option.some_injective _ hs
    simp only at hoff
    rw [hoff] at hoc
    simp only [Bool.not_false, if_true] at hoc
    obtain rfl : _ = oc := Option.some_injective _ hoc
    constructor
    · by_cases herr : (b1 &&& 0b1000000) = 0
      · simp [herr]
      · simp [herr]
    · rfl
  · rw [Bool.not_eq_true] at hb
    unfold from_bytes at hs
    rw [hb] at hs
    simp at hs

/-- Witness for C5 at the concrete offline snapshot `[0x1A, 0x52, 0x32, 0x12]`:
the offline-cause byte `0x52` has the error bit set and the error-cause byte
`0x32` has only the fatal bit among the three error flags, so the decoded
error is populated with `is_fatal_err = true` and the other two flags false. -/
theorem from_bytes_error_decode_witness :
    from_bytes 0x1A 0x52 0x32 0x12 =
        some { is_online := false,
               offline_cause := some { is_cover_open := false,
                                       is_paper_empty := false,
                                       error := some { is_cutter_err := false,
                                                       is_fatal_err := true,
                                                       is_recoverable_err := false } },
               paper_status := PaperStatus.adequate } ∧
      ({ is_cover_open := false, is_paper_empty := false,
         error := some { is_cutter_err := false, is_fatal_err := true,
                         is_recoverable_err := false } } : OfflineCause).error =
        some { is_cutter_err := false, is_fatal_err := true,
               is_recoverable_err := false } := by
  refine ⟨by decide, ?_⟩
  have h := from_bytes_error_decode 0x1A 0x52 0x32 0x12 (by decide) (by decide)
    (by decide) (by decide)
    { is_online := false,
      offline_cause := some { is_cover_open := false, is_paper_empty := false,
                              error := some { is_cutter_err := false,
                                              is_fatal_err := true,
                                              is_recoverable_err := false } },
      paper_status := PaperStatus.adequate }
    { is_cover_open := false, is_paper_empty := false,
      error := some { is_cutter_err := false, is_fatal_err := true,
                      is_recoverable_err := false } }
    (by decide) rfl rfl
  rw [h.2]
  decide

/-- Bit-packing arithmetic used by the character-size command: for nibble
values at most 8, shifting the width left four bits and OR-ing the height is
the same as `16 * w + h`. -/
theorem shift_or_eq_mul_add (a b : Nat) (ha : a ≤ 8) (hb : b ≤ 8) :
    (a <<< 4) ||| b = 16 * a + b := by
  interval_cases a <;> interval_cases b <;> decide

/-- C6: for all magnification inputs, `CMD_CHAR_SIZE` emits the `GS b'!'`
header followed by one packed byte whose value is the width clamped to
`[0, 8]` shifted left four bits plus the height clamped to `[0, 8]`; in
particular `CMD_CHAR_SIZE 10 0` is the identical byte sequence as
`CMD_CHAR_SIZE 8 0`. -/
theorem cmd_char_size_encoding (h_magnify w_magnify : Nat) :
    CMD_CHAR_SIZE h_magnify w_magnify =
        [GS, 33, 16 * min w_magnify 8 + min h_magnify 8] ∧
      CMD_CHAR_SIZE 10 0 = CMD_CHAR_SIZE 8 0 := by
  constructor
  · have hpack := shift_or_eq_mul_add (min w_magnify 8) (min h_magnify 8)
      (Nat.min_le_right _ _) (Nat.min_le_right _ _)
    simp [CMD_CHAR_SIZE, rustClamp, Nat.zero_max, hpack]
  · decide

/-- C9: for all magnification inputs, the `CMD_CHAR_SIZE` output is exactly
3 bytes, and the packed parameter byte has high nibble and low nibble both
at most 8, hence value at most `0x88`. -/
theorem cmd_char_size_bounds (h_magnify w_magnify : Nat) :
    (CMD_CHAR_SIZE h_magnify w_magnify).length = 3 ∧
      (CMD_CHAR_SIZE h_magnify w_magnify).getD 2 0 / 16 ≤ 8 ∧
      (CMD_CHAR_SIZE h_magnify w_magnify).getD 2 0 % 16 ≤ 8 ∧
      (CMD_CHAR_SIZE h_magnify w_magnify).getD 2 0 ≤ 0x88 := by
  have hw : min w_magnify 8 ≤ 8 := Nat.min_le_right _ _
  have hh : min h_magnify 8 ≤ 8 := Nat.min_le_right _ _
  have hgetD : (CMD_CHAR_SIZE h_magnify w_magnify).getD 2 0 =
      16 * min w_magnify 8 + min h_magnify 8 := by
    simp [CMD_CHAR_SIZE, rustClamp, Nat.zero_max,
      shift_or_eq_mul_add (min w_magnify 8) (min h_magnify 8) hw hh]
  refine ⟨rfl, ?_, ?_, ?_⟩ <;> rw [hgetD] <;> omega

mutual

/-- Helper for the frame property: compiling any node only appends to the
buffer. -/
theorem compileNode_extends : ∀ (n : MdNode) (buf : List Nat), buf <+: compileNode n buf
  | MdNode.root cs, buf => by
      simp only [compileNode]
      exact compileNodes_extends cs buf
  | MdNode.paragraph cs, buf => by
      simp only [compileNode]
      exact (compileNodes_extends cs buf).trans (List.prefix_append _ _)
  | MdNode.heading depth cs, buf => by
      simp only [compileNode]
      exact ((List.prefix_append buf _).trans
        ((compileNodes_extends cs _).trans (List.prefix_append _ _))).trans
        (List.prefix_append _ _)
  | MdNode.text v, buf => by
      simp only [compileNode]
      exact List.prefix_append _ _
  | MdNode.strong cs, buf => by
      simp only [compileNode]
      exact (List.prefix_append buf _).trans
        ((compileNodes_extends cs _).trans (List.prefix_append _ _))
  | MdNode.unsupported, buf => by
      simp only [compileNode]
      exact List.prefix_refl _

/-- Helper for the frame property over a child list. -/
theorem compileNodes_extends : ∀ (cs : List MdNode) (buf : List Nat),
    buf <+: compileNodes cs buf
  | [], buf => by
      simp only [compileNodes]
      exact List.prefix_refl _
  | c :: cs, buf => by
      simp only [compileNodes]
      exact (compileNode_extends c buf).trans (compileNodes_extends cs _)

end

/-- C10: for every markup node and every output buffer, compiling the node
only appends bytes: the buffer before the call is a prefix of the buffer
after the call. -/
theorem compileNode_appends_only (n : MdNode) (buf : List Nat) :
    buf <+: compileNode n buf :=
  compileNode_extends n buf

/-- C7: compiling a depth-1 heading containing a plain text child emits, in
this exact order, the character-size-enable command, the literal text bytes,
the character-size-reset command, then two newline bytes. -/
theorem compile_heading1_layout (t buf : List Nat) :
    compileNode (MdNode.heading 1 [MdNode.text t]) buf =
      buf ++ CMD_CHAR_SIZE 1 0 ++ t ++ CMD_CHAR_SIZE 0 0 ++ [10, 10] := by
  simp [compileNode, compileNodes]

/-- C8 counterexample: with a pipe stall on the first attempt but a failing
clear-halt call, `_io_with_retry` performs no retry at all — `io_func` runs
exactly once — so a first-attempt pipe stall is not always followed by
exactly one retry as the claim states. -/
theorem ioWithRetry_clearhalt_fail_counterexample :
    (ioWithRetry 0x81 (Except.error RusbError.pipe : Except RusbError Nat)
        (Except.error RusbError.noDevice) (Except.ok 0)).ioCalls = 1 ∧
      (ioWithRetry 0x81 (Except.error RusbError.pipe : Except RusbError Nat)
          (Except.error RusbError.noDevice) (Except.ok 0)).result =
        Except.error (PrintyError.driver DriverKind.usb
          (ErrContext.clearHaltFailed 0x81) (some RusbError.noDevice)) :=
  ⟨rfl, rfl⟩

/-- C8 (amended): on a first-attempt pipe stall exactly one clear-halt is
issued on the failing endpoint; if the clear-halt succeeds, exactly one
retry follows and a retry failure is surfaced as a fatal driver error with
the endpoint in its context, never retried again; if the clear-halt fails,
the operation is surfaced as fatal with the endpoint, with no retry; any
non-stall first-attempt error is surfaced as fatal with the endpoint after
a single attempt and no clear-halt. -/
theorem ioWithRetry_policy {T : Type} (ept_addr : Nat)
    (r1 : Except RusbError T) (clearHaltRes : Except RusbError Unit)
    (r2 : Except RusbError T) :
    (r1 = Except.error RusbError.pipe →
      (ioWithRetry ept_addr r1 clearHaltRes r2).clearHaltCalls = [ept_addr]) ∧
    (r1 = Except.error RusbError.pipe → clearHaltRes = Except.ok () →
      (ioWithRetry ept_addr r1 clearHaltRes r2).ioCalls = 2 ∧
      ∀ e2, r2 = Except.error e2 →
        (ioWithRetry ept_addr r1 clearHaltRes r2).result =
          Except.error (PrintyError.driver DriverKind.usb
            (ErrContext.retryFailed ept_addr) (some e2))) ∧
    (r1 = Except.error RusbError.pipe →
      ∀ ce, clearHaltRes = Except.error ce →
        (ioWithRetry ept_addr r1 clearHaltRes r2).ioCalls = 1 ∧
        (ioWithRetry ept_addr r1 clearHaltRes r2).result =
          Except.error (PrintyError.driver DriverKind.usb
            (ErrContext.clearHaltFailed ept_addr) (some ce))) ∧
    (∀ e, r1 = Except.error e → e ≠ RusbError.pipe →
      (ioWithRetry ept_addr r1 clearHaltRes r2).ioCalls = 1 ∧
      (ioWithRetry ept_addr r1 clearHaltRes r2).clearHaltCalls = [] ∧
      (ioWithRetry ept_addr r1 clearHaltRes r2).result =
        Except.error (PrintyError.driver DriverKind.usb
          (ErrContext.ioFailed ept_addr e) (some e))) := by
  rcases r1 with e | v
  · cases e <;> rcases clearHaltRes with ce | u <;> rcases r2 with e2 | w <;>
      simp [ioWithRetry]
  · rcases clearHaltRes with ce | u <;> rcases r2 with e2 | w <;>
      simp [ioWithRetry]

/-- Witness for C8 (amended) at the concrete scenario: pipe stall on the
first write attempt on endpoint `0x81`, successful clear-halt, and a retry
that fails with a timeout. -/
theorem ioWithRetry_policy_witness :
    (ioWithRetry 0x81 (Except.error RusbError.pipe : Except RusbError Nat)
        (Except.ok ()) (Except.error RusbError.timeout)).clearHaltCalls = [0x81] ∧
      (ioWithRetry 0x81 (Except.error RusbError.pipe : Except RusbError Nat)
          (Except.ok ()) (Except.error RusbError.timeout)).ioCalls = 2 ∧
      (ioWithRetry 0x81 (Except.error RusbError.pipe : Except RusbError Nat)
          (Except.ok ()) (Except.error RusbError.timeout)).result =
        Except.error (PrintyError.driver DriverKind.usb
          (ErrContext.retryFailed 0x81) (some RusbError.timeout)) := by
  have h := ioWithRetry_policy 0x81
    (Except.error RusbError.pipe : Except RusbError Nat)
    (Except.ok ()) (Except.error RusbError.timeout)
  exact ⟨h.1 rfl, (h.2.1 rfl rfl).1, (h.2.1 rfl rfl).2 RusbError.timeout rfl⟩

/-- C1 counterexample: when the transport write fails, `Printer::status`
unwraps the write result and panics instead of returning the absence of a
status. -/
theorem status_write_failure_counterexample :
    statusRun (Except.error (PrintyError.driver DriverKind.usb
          (ErrContext.ioFailed 0x02 RusbError.timeout) (some RusbError.timeout)))
        (Except.ok ⟨4, 0x12, 0x12, 0x12, 0x12⟩) = StatusOutcome.panics ∧
      StatusOutcome.panics ≠ StatusOutcome.returns none :=
  ⟨rfl, by decide⟩

/-- C1 (amended): when the transport write succeeds, a failed read or a
read of fewer than 4 bytes makes `Printer::status` return `none` rather
than a partial result; a failed write, by contrast, panics through the
`unwrap`. -/
theorem status_read_failure_returns_none (w : Nat)
    (readRes : Except PrintyError ReadResult)
    (h : (∃ e, readRes = Except.error e) ∨
         (∃ r, readRes = Except.ok r ∧ r.len ≠ 4)) :
    statusRun (Except.ok w) readRes = StatusOutcome.returns none := by
  rcases h with ⟨e, rfl⟩ | ⟨r, rfl, hlen⟩
  · rfl
  · simp [statusRun, hlen]

/-- Witness for C1 (amended) at a concrete short read of 2 bytes. -/
theorem status_read_failure_returns_none_witness :
    statusRun (Except.ok 8) (Except.ok ⟨2, 0x12, 0x12, 0, 0⟩) =
      StatusOutcome.returns none :=
  status_read_failure_returns_none 8 (Except.ok ⟨2, 0x12, 0x12, 0, 0⟩)
    (Or.inr ⟨⟨2, 0x12, 0x12, 0, 0⟩, rfl, by decide⟩)
